import Mathlib

/-
Verification development for the shader-generator module
(src/src/webgl/ShaderGen.js).

Shallow-embedding conventions:

* Numeric literals.  The source manipulates JS numbers.  Every literal
  exercised by the specification and by the scenarios below is an exact
  multiple of 1/10000, so a number is embedded as its value scaled by
  10^4 (`JSNumber.scaled`).  `Math.floor` becomes flooring division by
  10000 (`Int.fdiv`), and `Number.prototype.toFixed(4)` needs no
  rounding on such values and becomes sign/integer-part/4-digit
  fraction concatenation.

* The node graph.  JS nodes are mutable objects linked by references;
  here a graph is a list of `SNode` records addressed by position, and
  the only mutation the renderer performs (caching
  `this.temporaryVariable` in `BaseNode.getTemp`) is explicit state
  passing on `RenderState`.  `usedInLen` embeds `this.usedIn.length`:
  the `BinaryOperatorNode` constructor pushes itself onto both
  operands' `usedIn` arrays, so the scenario stores below always
  contain enough parent nodes to account for the recorded counts.

* Rendering.  `BaseNode.toGLSLBase` / `getTemp` / `toGLSL` /
  `BinaryOperatorNode.processOperand` and the comma-joining loop of
  `VectorNode.toGLSL` are mutually recursive through the object graph;
  they are embedded as one fuel-indexed interpreter `render` over a
  task type, with one wrapper per source method.  Fuel only bounds
  recursion depth; all concrete runs below use ample fuel.

* `srcLine` is the stack-captured debug comment of the source
  (best-effort diagnostics); scenarios choose `none`, i.e. no
  `// From ...` comment line is prepended to declarations.

* Thrown exceptions are embedded as `Option`/`none` results where a
  claim depends on them (`BinaryOperatorNode.determineType`).
-/

/- ===== Numeric literals (IntNode / FloatNode value rendering) ===== -/

/-- A JS number that is an exact multiple of 1/10000, stored scaled by 10^4. -/
structure JSNumber where
  scaled : Int
deriving DecidableEq

/-- Embeds a whole-number literal. -/
def jsNum (i : Int) : JSNumber := ⟨i * 10000⟩

/-- Model of `Math.floor` on an embedded number: flooring division by 10^4. -/
def jsMathFloor (x : JSNumber) : Int := x.scaled.fdiv 10000

/-- Decimal digit character for `n % 10`. -/
def digitCh (n : Nat) : Char := Char.ofNat (48 + n % 10)

/-- Four decimal digits of `n` (most significant first), zero padded. -/
def pad4 (n : Nat) : String :=
  String.mk [digitCh (n / 1000), digitCh (n / 100), digitCh (n / 10), digitCh n]

/-- Model of `x.toFixed(4)` for numbers that are exact multiples of 1/10000
(no rounding occurs on such values). -/
def jsToFixed4 (x : JSNumber) : String :=
  (if x.scaled < 0 then "-" else "")
    ++ toString (x.scaled.natAbs / 10000) ++ "." ++ pad4 (x.scaled.natAbs % 10000)

/-- `IntNode.toGLSL` on a plain numeric literal: `Math.floor(this.x)`
interpolated into a template string (ShaderGen.js line 233). -/
def intLitToGLSL (x : JSNumber) : String := toString (jsMathFloor x)

/-- `FloatNode.toGLSL` on a plain numeric literal: `this.x.toFixed(4)`
(ShaderGen.js line 254). -/
def floatLitToGLSL (x : JSNumber) : String := jsToFixed4 x

/-- Modelled from the spec: the claim says an int scalar renders "the integer
truncation of its value"; truncation is division toward zero (`Int.tdiv`). -/
def specIntTruncToGLSL (x : JSNumber) : String := toString (x.scaled.tdiv 10000)

/- ===== The type system (helper predicates and determineType) ===== -/

/-- Helper `isVectorNode`, restricted to the type string it inspects:
the type is one of vec2, vec3, vec4 (ShaderGen.js line 518). -/
def isVectorType (t : String) : Bool := t == "vec2" || t == "vec3" || t == "vec4"

/-- `BinaryOperatorNode.determineType` (ShaderGen.js lines 417-435), which
only inspects the two operands' type strings; `none` embeds the thrown
"Incompatible types for binary operator" error. -/
def determineType (a b : String) : Option String :=
  if a == b then some a
  else if isVectorType a && b == "float" then some a
  else if isVectorType b && a == "float" then some b
  else if (a == "float" && b == "int") || (a == "int" && b == "float") then some "float"
  else none

/-- Modelled from the spec (section 4.3): the promotion table in the claim's
priority order: equal types give that type; vector with float gives the
vector type; float with int gives float; otherwise TypeMismatchError. -/
def specBinaryResultType (a b : String) : Option String :=
  if a == b then some a
  else if isVectorType a && b == "float" then some a
  else if isVectorType b && a == "float" then some b
  else if (a == "float" && b == "int") || (a == "int" && b == "float") then some "float"
  else none

/-- Every type string a node of this module can carry: scalar and vector
types, the sampler type of `uniformTexture`, and the `keyword` type of
`discard`. -/
def glslTypes : List String := ["int", "float", "vec2", "vec3", "vec4", "sampler2D", "keyword"]

/- ===== The operator rewriter (ASTCallbacks) ===== -/

/-- The fragment of the parsed JS expression grammar the rewriter touches.
An assignment's left side is the identifier name the source reads via
`node.left.name`. -/
inductive JSExpr
  | ident (name : String)
  | numLit (value : JSNumber)
  | binary (op : String) (left right : JSExpr)
  | assign (op : String) (leftName : String) (right : JSExpr)
  | callMember (obj : JSExpr) (methodName : String) (args : List JSExpr)

/-- `replaceBinaryOperator` (ShaderGen.js lines 41-49); the switch has no
default, so an unlisted operator yields JS `undefined`, embedded as `none`. -/
def replaceBinaryOperator (codeSource : String) : Option String :=
  if codeSource == "+" then some "add"
  else if codeSource == "-" then some "sub"
  else if codeSource == "*" then some "mult"
  else if codeSource == "/" then some "div"
  else if codeSource == "%" then some "mod"
  else none

/-- Interpolating `replaceBinaryOperator`'s result as an identifier name,
with JS `undefined` printed as "undefined". -/
def methodNameFor (op : String) : String := (replaceBinaryOperator op).getD "undefined"

/-- `node.operator.replace('=','')` for compound assignment operators; each
such operator contains exactly one '=', so removing every '=' matches the
source's first-occurrence replacement. -/
def stripEq (op : String) : String := String.mk (op.toList.filter (fun c => c != '='))

mutual
/-- The AST walk with `ASTCallbacks` (ShaderGen.js lines 51-91).  The walker
visits children before firing a node's callback, so the embedding rewrites
subterms first.  `BinaryExpression` becomes a method call on the rewritten
left operand; `AssignmentExpression` with a compound operator becomes a plain
assignment whose right side calls the operator method on the left-hand
identifier; plain `=` assignments keep their shape. -/
def rewriteAST : JSExpr → JSExpr
  | .ident n => .ident n
  | .numLit v => .numLit v
  | .binary op l r => .callMember (rewriteAST l) (methodNameFor op) [rewriteAST r]
  | .assign op ln r =>
      if op == "=" then .assign "=" ln (rewriteAST r)
      else .assign "=" ln (.callMember (.ident ln) (methodNameFor (stripEq op)) [rewriteAST r])
  | .callMember o m as => .callMember (rewriteAST o) m (rewriteASTArgs as)
/-- Child rewriting for argument lists (the walker recurses into call
arguments even though calls themselves have no callback). -/
def rewriteASTArgs : List JSExpr → List JSExpr
  | [] => []
  | e :: es => rewriteAST e :: rewriteASTArgs es
end

/- ===== The node graph ===== -/

/-- `FunctionCallNode.args` is either a JS array of nodes or a single node
(`deconstructArgs` branches on `this.args.constructor === Array`). -/
inductive FCArgs
  | arr (nids : List Nat)
  | one (nid : Nat)
deriving DecidableEq

/-- Kind-specific payload of a node; operand/parent/component references are
positions into the graph's node list. -/
inductive NodeData
  | intLit (x : JSNumber)
  | floatLit (x : JSNumber)
  | intWrap (inner : Nat)
  | floatWrap (inner : Nat)
  | vector (comps : List Nat)
  | funcCall (name : String) (args : FCArgs)
  | varRef (name : String)
  | component (parent : Nat) (axis : String)
  | binop (op : String) (a : Nat) (b : Nat)
deriving DecidableEq

/-- One node of the graph: payload, `this.type`, `this.isInternal`,
`this.usedIn.length`, the cached `this.temporaryVariable`, and the
stack-captured `this.srcLine`. -/
structure SNode where
  data : NodeData
  type : String
  isInternal : Bool
  usedInLen : Nat
  temporaryVariable : Option String := none
  srcLine : Option String := none
deriving DecidableEq

/-- `isBinaryOperatorNode` (instanceof BinaryOperatorNode). -/
def SNode.isBinaryOperatorNode (n : SNode) : Bool :=
  match n.data with | .binop .. => true | _ => false

/-- The two instanceof checks of `isVariableNode`:
instanceof VariableNode or instanceof ComponentNode. -/
def SNode.isVariableInstance (n : SNode) : Bool :=
  match n.data with | .varRef _ => true | .component .. => true | _ => false

/-- `isVariableNode` (ShaderGen.js lines 526-528): a VariableNode, a
ComponentNode, or any node whose `temporaryVariable` is defined. -/
def SNode.isVariableNode (n : SNode) : Bool :=
  n.isVariableInstance || n.temporaryVariable.isSome

/-- `isVectorNode`: the node's type is a vector type. -/
def SNode.isVectorNode (n : SNode) : Bool := isVectorType n.type

/-- `isIntNode`: the node's type is `int`. -/
def SNode.isIntNode (n : SNode) : Bool := n.type == "int"

/-- `isFloatNode`: the node's type is `float`. -/
def SNode.isFloatNode (n : SNode) : Bool := n.type == "float"

/-- The node is a Variable Node in the data-model sense (instanceof
VariableNode only). -/
def SNode.isVarRefNode (n : SNode) : Bool :=
  match n.data with | .varRef _ => true | _ => false

/-- The node is a Component Access node (instanceof ComponentNode). -/
def SNode.isComponentNode (n : SNode) : Bool :=
  match n.data with | .component .. => true | _ => false

/-- The score computed by `BaseNode.useTempVar`: booleans coerce to 0/1 in
the source's `score += ...` lines. -/
def SNode.hoistScore (n : SNode) : Nat :=
  (if n.isBinaryOperatorNode then 1 else 0) + (if n.isVectorNode then 2 else 0) + n.usedInLen

/-- `BaseNode.useTempVar` (ShaderGen.js lines 146-153). -/
def SNode.useTempVar (n : SNode) : Bool :=
  if n.isInternal || n.isVariableNode then false else decide (3 < n.hoistScore)

/-- The node graph plus the active render context (`this.context`): the
monotonically increasing id and the ordered declaration list. -/
structure RenderState where
  nodes : List SNode
  ctxId : Nat
  decls : List String
deriving DecidableEq

/-- One pending call of the renderer: `toGLSLBase`, `getTemp`, `toGLSL`,
`processOperand` (carrying the calling node's type), or the component
comma-join loop of `VectorNode.toGLSL`. -/
inductive RTask
  | base (nid : Nat)
  | tmp (nid : Nat)
  | plain (nid : Nat)
  | operand (selfType : String) (nid : Nat)
  | comps (nids : List Nat)

/-- Fuel-indexed interpreter for the mutually recursive rendering methods of
ShaderGen.js.  Each arm is a direct transcription:
`base` = `BaseNode.toGLSLBase` (lines 125-132);
`tmp` = `BaseNode.getTemp` (lines 155-166: name taken from the current id,
the id incremented, the cached name set before the recursive `toGLSL`, the
declaration pushed after it);
`plain` = the per-class `toGLSL` methods (int/float literal formatting, the
wrapping branches of IntNode/FloatNode — where IntNode's check
`isIntNode(this.x.type)` is passed a string and is therefore always false,
so an `int(...)` cast is always emitted — vector constructor join,
`FunctionCallNode.toGLSL` with `deconstructArgs`' early `return` inside its
loop so only the first two array arguments are joined and a one-element
array falls through to `undefined`, and an empty array throws, rendered here
as the same `undefined` text; variable names; `ComponentNode.toGLSL`
preferring the parent's cached temporary name; and
`BinaryOperatorNode.toGLSL`);
`operand` = `BinaryOperatorNode.processOperand` (lines 437-447);
`comps` = the `forEach` join of `VectorNode.toGLSL`. -/
def render (fuel : Nat) (task : RTask) (st : RenderState) : String × RenderState :=
  match fuel with
  | 0 => ("", st)
  | fuel + 1 =>
    match task with
    | .base nid =>
      match st.nodes.get? nid with
      | none => ("", st)
      | some n => if n.useTempVar then render fuel (.tmp nid) st else render fuel (.plain nid) st
    | .tmp nid =>
      match st.nodes.get? nid with
      | none => ("", st)
      | some n =>
        match n.temporaryVariable with
        | some t => (t, st)
        | none =>
          let tname := "temp_" ++ toString st.ctxId
          let st1 : RenderState :=
            { st with ctxId := st.ctxId + 1,
                      nodes := st.nodes.set nid { n with temporaryVariable := some tname } }
          let pre := match n.srcLine with
            | some s => "\n// From " ++ s ++ "\n"
            | none => ""
          let r := render fuel (.plain nid) st1
          (tname, { r.2 with decls := r.2.decls ++ [pre ++ n.type ++ " " ++ tname ++ " = " ++ r.1 ++ ";"] })
    | .plain nid =>
      match st.nodes.get? nid with
      | none => ("", st)
      | some n =>
        match n.data with
        | .intLit x => (intLitToGLSL x, st)
        | .floatLit x => (floatLitToGLSL x, st)
        | .intWrap inner =>
          let r := render fuel (.base inner) st
          ("int(" ++ r.1 ++ ")", r.2)
        | .floatWrap inner =>
          let r := render fuel (.base inner) st
          let innerIsFloat := match st.nodes.get? inner with
            | some m => m.type == "float"
            | none => false
          (if innerIsFloat then r.1 else "float(" ++ r.1 ++ ")", r.2)
        | .vector comps =>
          let r := render fuel (.comps comps) st
          (n.type ++ "(" ++ r.1 ++ ")", r.2)
        | .funcCall name (.arr list) =>
          match list with
          | [] => (name ++ "(undefined)", st)
          | [a] =>
            let r := render fuel (.base a) st
            (name ++ "(undefined)", r.2)
          | a :: b :: _ =>
            let ra := render fuel (.base a) st
            let rb := render fuel (.base b) ra.2
            (name ++ "(" ++ ra.1 ++ ", " ++ rb.1 ++ ")", rb.2)
        | .funcCall name (.one single) =>
          let r := render fuel (.base single) st
          (name ++ "(" ++ r.1 ++ ")", r.2)
        | .varRef name => (name, st)
        | .component parent axis =>
          match st.nodes.get? parent with
          | none => ("undefined." ++ axis, st)
          | some p =>
            let pname := match p.temporaryVariable with
              | some t => t
              | none => match p.data with
                | .varRef nm => nm
                | _ => "undefined"
            (pname ++ "." ++ axis, st)
        | .binop op a b =>
          let ra := render fuel (.operand n.type a) st
          let rb := render fuel (.operand n.type b) ra.2
          (ra.1 ++ " " ++ op ++ " " ++ rb.1, rb.2)
    | .operand selfType nid =>
      match st.nodes.get? nid with
      | none => ("", st)
      | some n =>
        match n.temporaryVariable with
        | some t => (t, st)
        | none =>
          let r := render fuel (.base nid) st
          let hoisted := match r.2.nodes.get? nid with
            | some n2 => n2.temporaryVariable.isSome
            | none => false
          let code := if n.isBinaryOperatorNode && !hoisted then "(" ++ r.1 ++ ")" else r.1
          let code2 := if selfType == "float" && n.isIntNode then "float(" ++ code ++ ")" else code
          (code2, r.2)
    | .comps nids =>
      match nids with
      | [] => ("", st)
      | [a] => render fuel (.base a) st
      | a :: rest =>
        let ra := render fuel (.base a) st
        let rr := render fuel (.comps rest) ra.2
        (ra.1 ++ ", " ++ rr.1, rr.2)

/-- `BaseNode.toGLSLBase(context)` on node `nid`. -/
def toGLSLBase (fuel : Nat) (nid : Nat) (st : RenderState) : String × RenderState :=
  render fuel (.base nid) st

/-- `BinaryOperatorNode.processOperand(operand, context)` where the calling
node's type is `selfType`. -/
def processOperand (fuel : Nat) (selfType : String) (nid : Nat) (st : RenderState) : String × RenderState :=
  render fuel (.operand selfType nid) st

/-- The operand node's cached temporary name after it has been rendered once
with `toGLSLBase` (what `processOperand` reads back for its parenthesizing
decision). -/
def tempAfter (fuel : Nat) (nid : Nat) (st : RenderState) : Option String :=
  match (render fuel (.base nid) st).2.nodes.get? nid with
  | some n2 => n2.temporaryVariable
  | none => none

/-- `ShaderGenerator.buildFunction` (ShaderGen.js lines 560-567) for a hook
whose callback produced root node `rootId`: render the root, join the
accumulated declarations with the final assignment/return line, then
`resetGLSLContext` (lines 552-558) replaces the context with a fresh one
(id 0, empty declarations) while the node graph persists. -/
def buildFunctionModel (fuel : Nat) (argumentName : String) (rootId : Nat) (st : RenderState) : String × RenderState :=
  let r := render fuel (.base rootId) st
  (String.intercalate "\n" (r.2.decls ++ ["\n" ++ argumentName ++ " = " ++ r.1 ++ "; \nreturn " ++ argumentName ++ ";"]),
   { nodes := r.2.nodes, ctxId := 0, decls := [] })

/- ===== Variable-node component accessors (C9) ===== -/

/-- The axis names `VariableNode.autoAddVectorComponents` attaches for each
declared type (ShaderGen.js lines 371-381): the `options` table, with `[]`
for any other type. -/
def autoAddVectorComponents (t : String) : List String :=
  if t == "vec2" then ["x", "y"]
  else if t == "vec3" then ["x", "y", "z"]
  else if t == "vec4" then ["x", "y", "z", "w"]
  else []

/-- `VariableNode.addComponent`: a ComponentNode child, always internal and
always typed float (ShaderGen.js lines 367-369 and 388-394). -/
def mkComponent (parent : Nat) (axis : String) : SNode :=
  { data := .component parent axis, type := "float", isInternal := true, usedInLen := 0 }

/-- The accessor children a VariableNode of type `t` owns immediately after
construction. -/
def mkComponentChildren (parent : Nat) (t : String) : List SNode :=
  (autoAddVectorComponents t).map (mkComponent parent)

/- ===== The public modify entry point (C10) ===== -/

/-- The argument passed to `p5.Shader.prototype.modify`: either a JS function
(carrying its source text) or any non-function value. -/
inductive ModifierArg
  | jsFunction (source : String)
  | nonFunction (value : String)

/-- What the patched `modify` does: either it runs the compiler pipeline on a
function's source, or it delegates to the saved `oldModify`. -/
inductive ModifyResult (β : Type)
  | delegated (result : β)
  | compiled (source : String)

/-- `p5.Shader.prototype.modify` (ShaderGen.js lines 17-37): a function
argument enters the transpile/generate pipeline; anything else is returned
via `oldModify.call(this, modifier)` untouched. -/
def shaderModify {β : Type} (oldModify : ModifierArg → β) : ModifierArg → ModifyResult β
  | .jsFunction src => .compiled src
  | .nonFunction v => .delegated (oldModify (.nonFunction v))

/- ===== String containment helper (for counterexamples) ===== -/

/-- The pattern occurs at the head of the character list. -/
def leadsWith : List Char → List Char → Bool
  | _, [] => true
  | [], _ :: _ => false
  | a :: as, b :: bs => a == b && leadsWith as bs

/-- The pattern occurs somewhere in the character list. -/
def containsSeq : List Char → List Char → Bool
  | [], sub => sub.isEmpty
  | a :: as, sub => leadsWith (a :: as) sub || containsSeq as sub

/-- The second string occurs as a contiguous substring of the first. -/
def strContains (s pat : String) : Bool := containsSeq s.toList pat.toList

/- ===== Concrete scenario graphs ===== -/

/-- Scenario for C3: the graph of `x = a.add(b); q = x.add(x).add(x)` with
float literals `a = 1`, `b = 2`.  Node 2 is `x` with `usedIn.length = 3`
(pushed once by node 3 via its first operand and twice by nodes 3/4 as shown),
so its hoist score is 1 + 0 + 3 = 4 > 3.  Nodes 3 and 4 are the parents that
account for the usage count. -/
def c3State : RenderState :=
  { nodes := [
      { data := .floatLit (jsNum 1), type := "float", isInternal := false, usedInLen := 1 },
      { data := .floatLit (jsNum 2), type := "float", isInternal := false, usedInLen := 1 },
      { data := .binop "+" 0 1, type := "float", isInternal := false, usedInLen := 3 },
      { data := .binop "+" 2 2, type := "float", isInternal := false, usedInLen := 1 },
      { data := .binop "+" 3 2, type := "float", isInternal := false, usedInLen := 0 } ],
    ctxId := 0, decls := [] }

/-- Scenario for C5: two independent hook graphs in one session.  Nodes 0-4
are hook 1's graph (root 4), nodes 5-9 are hook 2's graph (root 9); each
root is `x.add(x).add(x)` over a hoistable `x = lit.add(lit)`. -/
def c5State : RenderState :=
  { nodes := [
      { data := .floatLit (jsNum 1), type := "float", isInternal := false, usedInLen := 1 },
      { data := .floatLit (jsNum 2), type := "float", isInternal := false, usedInLen := 1 },
      { data := .binop "+" 0 1, type := "float", isInternal := false, usedInLen := 3 },
      { data := .binop "+" 2 2, type := "float", isInternal := false, usedInLen := 1 },
      { data := .binop "+" 3 2, type := "float", isInternal := false, usedInLen := 0 },
      { data := .floatLit (jsNum 3), type := "float", isInternal := false, usedInLen := 1 },
      { data := .floatLit (jsNum 4), type := "float", isInternal := false, usedInLen := 1 },
      { data := .binop "+" 5 6, type := "float", isInternal := false, usedInLen := 3 },
      { data := .binop "+" 7 7, type := "float", isInternal := false, usedInLen := 1 },
      { data := .binop "+" 8 7, type := "float", isInternal := false, usedInLen := 0 } ],
    ctxId := 0, decls := [] }

/-- Scenario for C6: node 2 is the int-typed binary node `x = 1 + 2` with
`usedIn.length = 4` (pushed once each by nodes 4 and 6 and twice by node 7,
which is `x.add(x)`); nodes 4 and 6 are float-typed binary nodes with `x` as
their int operand (their types come from `determineType int float = float`);
node 3 is the literal 0.5 and node 5 the literal 0.25. -/
def c6State : RenderState :=
  { nodes := [
      { data := .intLit (jsNum 1), type := "int", isInternal := false, usedInLen := 1 },
      { data := .intLit (jsNum 2), type := "int", isInternal := false, usedInLen := 1 },
      { data := .binop "+" 0 1, type := "int", isInternal := false, usedInLen := 4 },
      { data := .floatLit ⟨5000⟩, type := "float", isInternal := false, usedInLen := 1 },
      { data := .binop "+" 2 3, type := "float", isInternal := false, usedInLen := 0 },
      { data := .floatLit ⟨2500⟩, type := "float", isInternal := false, usedInLen := 1 },
      { data := .binop "+" 2 5, type := "float", isInternal := false, usedInLen := 0 },
      { data := .binop "+" 2 2, type := "int", isInternal := false, usedInLen := 0 } ],
    ctxId := 0, decls := [] }

/-- Scenario for C8: function-call nodes over variable references: a
three-argument array call, a one-argument array call, and a single-node
(non-array) call. -/
def c8State : RenderState :=
  { nodes := [
      { data := .varRef "a", type := "float", isInternal := false, usedInLen := 0 },
      { data := .varRef "b", type := "float", isInternal := false, usedInLen := 0 },
      { data := .varRef "c", type := "float", isInternal := false, usedInLen := 0 },
      { data := .funcCall "foo" (.arr [0, 1, 2]), type := "vec4", isInternal := false, usedInLen := 0 },
      { data := .funcCall "bar" (.arr [0]), type := "vec4", isInternal := false, usedInLen := 0 },
      { data := .funcCall "sin" (.one 0), type := "float", isInternal := false, usedInLen := 0 } ],
    ctxId := 0, decls := [] }

/-- Witness node for C2: a non-internal, vector-typed binary node used once
(score 1 + 2 + 1 = 4). -/
def c2WitnessNode : SNode :=
  { data := .binop "+" 0 1, type := "vec3", isInternal := false, usedInLen := 1 }

/-- Witness state for C6: the snapshot of c6State right after node 2 was
hoisted as `temp_0` while rendering node 4. -/
def c6WitnessState : RenderState :=
  { nodes := [
      { data := .intLit (jsNum 1), type := "int", isInternal := false, usedInLen := 1 },
      { data := .intLit (jsNum 2), type := "int", isInternal := false, usedInLen := 1 },
      { data := .binop "+" 0 1, type := "int", isInternal := false, usedInLen := 4,
        temporaryVariable := some "temp_0" } ],
    ctxId := 1, decls := ["int temp_0 = 1 + 2;"] }

/-- The node c6WitnessState holds at position 2. -/
def c6WitnessNode : SNode :=
  { data := .binop "+" 0 1, type := "int", isInternal := false, usedInLen := 4,
    temporaryVariable := some "temp_0" }

/- ===================== Theorems ===================== -/

/-- Claim C1: for operands drawn from the module's type universe, the result
type of a binary operator node follows exactly the spec's priority table —
equal types give that type, vector with float broadcasts to the vector type,
float with int widens to float, and every other combination (such as vec2
with vec3) raises the type-mismatch error, embedded as `none`. -/
theorem C1_promotion_table :
    ∀ a ∈ glslTypes, ∀ b ∈ glslTypes, determineType a b = specBinaryResultType a b := by
  decide

/-- Witness for C1 at the claim's highlighted combination: vec2 with vec3
raises (both the code's table and the spec table give `none`). -/
theorem C1_promotion_table_witness : determineType "vec2" "vec3" = none :=
  (C1_promotion_table "vec2" (by decide) "vec3" (by decide)).trans (by decide)

/-- Claim C2: for a node about to be rendered for the first time (no cached
temporary yet; component nodes are always constructed internal in this
module, which the second hypothesis records), a temporary is allocated iff
the node is not a Variable Node, not internal, and its score
1·(binary operator) + 2·(vector type) + |usedIn| is strictly greater
than 3; in particular Variable Nodes and internal nodes are never hoisted. -/
theorem C2_planner (n : SNode) (hTemp : n.temporaryVariable = none)
    (hComp : n.isComponentNode = true → n.isInternal = true) :
    n.useTempVar = true ↔
      (n.isVarRefNode = false ∧ n.isInternal = false ∧ 3 < n.hoistScore) := by
  obtain ⟨data, type, isInternal, usedInLen, tv, src⟩ := n
  simp only [SNode.temporaryVariable] at hTemp
  subst hTemp
  cases data <;> cases isInternal <;>
    simp_all [SNode.useTempVar, SNode.isVariableNode, SNode.isVariableInstance,
      SNode.isVarRefNode, SNode.isComponentNode]

/-- Witness for C2 at a concrete hoistable node. -/
theorem C2_planner_witness :
    c2WitnessNode.useTempVar = true ↔
      (c2WitnessNode.isVarRefNode = false ∧ c2WitnessNode.isInternal = false ∧
        3 < c2WitnessNode.hoistScore) :=
  C2_planner c2WitnessNode rfl (by decide)

/-- Claim C3 (code-bug evidence): rendering the hoistable node `x` of
c3State twice in one context returns the temporary name `temp_0` the first
time and appends exactly one declaration, but the second rendering returns
the re-emitted inline expression `1.0000 + 2.0000` instead of the cached
name: once `temporaryVariable` is set, `isVariableNode` makes `useTempVar`
false, so `toGLSLBase` takes the plain `toGLSL` path and never consults the
cache. -/
theorem C3_second_render_not_cached :
    (toGLSLBase 9 2 c3State).1 = "temp_0" ∧
    (toGLSLBase 9 2 c3State).2.decls = ["float temp_0 = 1.0000 + 2.0000;"] ∧
    (toGLSLBase 9 2 (toGLSLBase 9 2 c3State).2).1 = "1.0000 + 2.0000" ∧
    (toGLSLBase 9 2 (toGLSLBase 9 2 c3State).2).2.decls = ["float temp_0 = 1.0000 + 2.0000;"] := by
  decide

/-- Claim C4: the rewriter maps `+ - * / %` binary expressions to
`add/sub/mult/div/mod` method calls on the (rewritten) left operand, turns
every compound assignment `x OP= rhs` into `x = x.method(rhs)`, leaves plain
`=` assignments untouched, and preserves grouping, rewriting `a - b * c` to
`a.sub(b.mult(c))`. -/
theorem C4_operator_rewriter (a b rhs : JSExpr) (x : String) :
    rewriteAST (.binary "+" a b) = .callMember (rewriteAST a) "add" [rewriteAST b] ∧
    rewriteAST (.binary "-" a b) = .callMember (rewriteAST a) "sub" [rewriteAST b] ∧
    rewriteAST (.binary "*" a b) = .callMember (rewriteAST a) "mult" [rewriteAST b] ∧
    rewriteAST (.binary "/" a b) = .callMember (rewriteAST a) "div" [rewriteAST b] ∧
    rewriteAST (.binary "%" a b) = .callMember (rewriteAST a) "mod" [rewriteAST b] ∧
    rewriteAST (.assign "+=" x rhs) = .assign "=" x (.callMember (.ident x) "add" [rewriteAST rhs]) ∧
    rewriteAST (.assign "-=" x rhs) = .assign "=" x (.callMember (.ident x) "sub" [rewriteAST rhs]) ∧
    rewriteAST (.assign "*=" x rhs) = .assign "=" x (.callMember (.ident x) "mult" [rewriteAST rhs]) ∧
    rewriteAST (.assign "/=" x rhs) = .assign "=" x (.callMember (.ident x) "div" [rewriteAST rhs]) ∧
    rewriteAST (.assign "%=" x rhs) = .assign "=" x (.callMember (.ident x) "mod" [rewriteAST rhs]) ∧
    rewriteAST (.assign "=" x rhs) = .assign "=" x (rewriteAST rhs) ∧
    rewriteAST (.binary "-" (.ident "a") (.binary "*" (.ident "b") (.ident "c")))
      = .callMember (.ident "a") "sub" [.callMember (.ident "b") "mult" [.ident "c"]] :=
  ⟨rfl, rfl, rfl, rfl, rfl, rfl, rfl, rfl, rfl, rfl, rfl, rfl⟩

/-- Claim C5 (counterexample part): in the two-hook session of c5State both
hook bodies contain the temporary name `temp_0`: hook 1 declares
`float temp_0 = 1.0000 + 2.0000;` and hook 2, compiling after hook 1 with
the id counter reset to zero, declares `float temp_0 = 3.0000 + 4.0000;` —
so the hooks do share the temporary name `temp_0`, refuting the claim's
"never share temporary names" conjunct. -/
theorem C5_shared_temp_name :
    (buildFunctionModel 12 "pos" 4 c5State).1
      = "float temp_0 = 1.0000 + 2.0000;\n\npos = (temp_0 + temp_0) + temp_0; \nreturn pos;" ∧
    (buildFunctionModel 12 "col" 9 (buildFunctionModel 12 "pos" 4 c5State).2).1
      = "float temp_0 = 3.0000 + 4.0000;\n\ncol = (temp_0 + temp_0) + temp_0; \nreturn col;" ∧
    strContains (buildFunctionModel 12 "pos" 4 c5State).1 "temp_0" = true ∧
    strContains (buildFunctionModel 12 "col" 9 (buildFunctionModel 12 "pos" 4 c5State).2).1 "temp_0" = true := by
  decide

/-- Claim C5 (amended): after any hook compilation the context is replaced by
a fresh one, so the next hook starts with an empty declaration list and the
id counter reset to 0 — no declaration leaks, but temporary names restart at
`temp_0` and may therefore coincide with the previous hook's names. -/
theorem C5_fresh_context :
    ∀ (fuel : Nat) (name : String) (root : Nat) (st : RenderState),
      (buildFunctionModel fuel name root st).2.ctxId = 0 ∧
      (buildFunctionModel fuel name root st).2.decls = [] :=
  fun _ _ _ _ => ⟨rfl, rfl⟩

/-- Claim C6 (counterexample part): rendering node 4 hoists the int operand
`x` (node 2) and casts it (`float(temp_0) + 0.5000`), but rendering node 6 —
also float-typed with the same int operand — finds the cached name and emits
it with no `float(...)` cast at all: `temp_0 + 0.2500`. -/
theorem C6_missing_cast :
    (toGLSLBase 9 4 c6State).1 = "float(temp_0) + 0.5000" ∧
    (toGLSLBase 9 6 (toGLSLBase 9 4 c6State).2).1 = "temp_0 + 0.2500" ∧
    strContains (toGLSLBase 9 6 (toGLSLBase 9 4 c6State).2).1 "float(" = false ∧
    (c6State.nodes.get? 2).map SNode.type = some "int" ∧
    (c6State.nodes.get? 6).map SNode.type = some "float" := by
  decide

/-- Claim C6 (amended): `processOperand` returns an operand's cached
temporary name bare — no parentheses and no cast — whenever the cache is
already set; for an uncached operand it renders via `toGLSLBase` and then
(a) casts an int-typed non-binary operand when the calling node's type is
float, and (b) parenthesizes a binary-operator operand that did not get
hoisted during that rendering. -/
theorem C6_operand_rendering (fuel : Nat) (nid : Nat) (st : RenderState) (n : SNode)
    (hn : st.nodes.get? nid = some n) :
    (∀ selfType t, n.temporaryVariable = some t →
        processOperand (fuel + 1) selfType nid st = (t, st)) ∧
    (n.temporaryVariable = none → n.isBinaryOperatorNode = false → n.isIntNode = true →
        processOperand (fuel + 1) "float" nid st
          = ("float(" ++ (toGLSLBase fuel nid st).1 ++ ")", (toGLSLBase fuel nid st).2)) ∧
    (n.temporaryVariable = none → n.isBinaryOperatorNode = true → n.isIntNode = false →
        tempAfter fuel nid st = none →
        ∀ selfType, processOperand (fuel + 1) selfType nid st
          = ("(" ++ (toGLSLBase fuel nid st).1 ++ ")", (toGLSLBase fuel nid st).2)) := by
  refine ⟨?_, ?_, ?_⟩
  · intro selfType t ht
    unfold processOperand render
    dsimp only
    rw [hn]
    dsimp only
    rw [ht]
  · intro ht hbin hint
    unfold processOperand render toGLSLBase
    dsimp only
    rw [hn]
    dsimp only
    rw [ht]
    dsimp only
    simp [hbin, hint]
  · intro ht hbin hint hafter selfType
    unfold tempAfter at hafter
    unfold processOperand render toGLSLBase
    dsimp only
    rw [hn]
    dsimp only
    rw [ht]
    dsimp only
    cases hopt : (render fuel (RTask.base nid) st).2.nodes.get? nid with
    | none => simp [hbin, hint]
    | some n2 =>
      rw [hopt] at hafter
      dsimp only at hafter
      simp [hbin, hint, hafter]

/-- Witness for C6 (amended) at the post-hoist snapshot: the operand with a
cached `temp_0` is returned bare. -/
theorem C6_operand_rendering_witness :
    processOperand 9 "float" 2 c6WitnessState = ("temp_0", c6WitnessState) :=
  (C6_operand_rendering 8 2 c6WitnessState c6WitnessNode rfl).1 "float" "temp_0" rfl

/-- Claim C7 (counterexample part): at the literal -1.5 (scaled -15000) the
int scalar renders "-2" — `Math.floor` — while the claim's "integer
truncation" would render "-1"; the two disagree. -/
theorem C7_floor_not_truncation :
    intLitToGLSL ⟨-15000⟩ = "-2" ∧
    specIntTruncToGLSL ⟨-15000⟩ = "-1" ∧
    intLitToGLSL ⟨-15000⟩ ≠ specIntTruncToGLSL ⟨-15000⟩ := by
  decide

/-- Claim C7 (amended): scalar literal rendering is deterministic and
fixed-format; an int scalar renders the floor of its value (the rendered
integer k satisfies k ≤ x < k+1), and a float scalar renders sign, integer
part, and exactly four decimal digits, with 1 rendering as `1.0000`. -/
theorem C7_scalar_literal_rendering (x : JSNumber) :
    intLitToGLSL x = toString (jsMathFloor x) ∧
    10000 * jsMathFloor x ≤ x.scaled ∧
    x.scaled < 10000 * (jsMathFloor x + 1) ∧
    (∃ frac : String, floatLitToGLSL x
        = (if x.scaled < 0 then "-" else "") ++ toString (x.scaled.natAbs / 10000) ++ "." ++ frac
      ∧ frac.length = 4) ∧
    floatLitToGLSL (jsNum 1) = "1.0000" := by
  refine ⟨rfl, ?_, ?_, ⟨pad4 (x.scaled.natAbs % 10000), rfl, rfl⟩, by decide⟩
  · unfold jsMathFloor
    rw [Int.fdiv_eq_ediv _ (by norm_num)]
    omega
  · unfold jsMathFloor
    rw [Int.fdiv_eq_ediv _ (by norm_num)]
    omega

/-- Claim C8 (code-bug evidence): the `return` inside `deconstructArgs`' loop
fires after the first extra argument, so a three-argument call renders only
its first two arguments (`foo(a, b)`, dropping `c`), and a one-argument
array call falls off the loop and interpolates `undefined`
(`bar(undefined)`); only the single-node (non-array) path renders as the
claim states (`sin(a)`). -/
theorem C8_function_call_arguments :
    (toGLSLBase 9 3 c8State).1 = "foo(a, b)" ∧
    (toGLSLBase 9 4 c8State).1 = "bar(undefined)" ∧
    (toGLSLBase 9 5 c8State).1 = "sin(a)" := by
  decide

/-- Claim C9 (counterexample part): a vec2-typed Variable Node owns exactly
two accessor children (x and y), not the four the claim demands. -/
theorem C9_vec2_has_two_components :
    mkComponentChildren 0 "vec2" = [mkComponent 0 "x", mkComponent 0 "y"] ∧
    (mkComponentChildren 0 "vec2").length = 2 ∧
    (mkComponentChildren 0 "vec2").length ≠ 4 := by
  decide

/-- Claim C9 (amended): a Variable Node of vector type owns, immediately
after construction, one Component Access child per axis of its arity —
x,y for vec2; x,y,z for vec3; x,y,z,w for vec4 — each internal and typed
float. -/
theorem C9_vector_components (p : Nat) :
    mkComponentChildren p "vec2" = [mkComponent p "x", mkComponent p "y"] ∧
    mkComponentChildren p "vec3" = [mkComponent p "x", mkComponent p "y", mkComponent p "z"] ∧
    mkComponentChildren p "vec4"
      = [mkComponent p "x", mkComponent p "y", mkComponent p "z", mkComponent p "w"] ∧
    (∀ axis : String, (mkComponent p axis).type = "float" ∧ (mkComponent p axis).isInternal = true) :=
  ⟨rfl, rfl, rfl, fun _ => ⟨rfl, rfl⟩⟩

/-- Claim C10: calling the patched modify entry point with a non-function
argument delegates to the saved pre-existing implementation unchanged and
never enters the compiler pipeline. -/
theorem C10_nonfunction_delegates {β : Type} (oldModify : ModifierArg → β) (v : String) :
    shaderModify oldModify (.nonFunction v) = .delegated (oldModify (.nonFunction v)) :=
  rfl
